import Mathlib

/-!
Shallow embedding of the state-migration benchmark core
(`src/app/server.py`, `src/benchmark/orchestrator/migration_controller.py`,
`src/benchmark/orchestrator/metrics_collector.py`,
`src/benchmark/orchestrator/config_loader.py`).

Timestamps (Python floats) are modelled as rationals; Python ints as `Int`
(counts that are provably non-negative as `Nat`); a replica blob, a Python
dict keyed by `str(counter)`, as an association list with `Nat` keys in
insertion order, since every key the server ever writes is the decimal
string of a counter value.  HTTP operations that can raise become `Except`.
-/

namespace StateMigration

/-- A replica blob: dict entries `counter ↦ payload chunk` in insertion
order, mirroring the `STATE["blob"]` dict of `src/app/server.py`. -/
abbrev Blob := List (Nat × String)

/-- `STATE["blob"][k] = v`: Python dict assignment replaces the value of an
existing key in place and appends a fresh key at the end. -/
def blobSet : Blob → Nat → String → Blob
  | [], k, v => [(k, v)]
  | (k', v') :: rest, k, v =>
      if k' = k then (k, v) :: rest else (k', v') :: blobSet rest k v

/-- Dict lookup `STATE["blob"].get(k)`. -/
def blobGet : Blob → Nat → Option String
  | [], _ => none
  | (k', v') :: rest, k => if k' = k then some v' else blobGet rest k

/-- The key set of a blob, in insertion order. -/
def blobKeys (b : Blob) : List Nat := b.map Prod.fst

/-- `for k, v in incoming.items(): STATE["blob"][k] = v`
(the blob union inside `_merge_state`). -/
def blobMerge (l i : Blob) : Blob :=
  i.foldl (fun acc kv => blobSet acc kv.1 kv.2) l

/-- `_blob_size_bytes`: sum of `len(v)` over the dict values. -/
def blobSizeBytes (b : Blob) : Nat :=
  (b.map (fun kv => kv.2.length)).sum

/-- In-memory state of one replica (`STATE` in `src/app/server.py`), minus
the `server` name and `updated_ts` wall-clock field, which no claim uses. -/
structure ServerState where
  counter : Int
  last_seq : Int
  blob : Blob
deriving Repr, DecidableEq

/-- The state a replica boots with: `counter = 0`, `last_seq = -1`,
empty blob. -/
def initState : ServerState := { counter := 0, last_seq := -1, blob := [] }

/-- `_merge_state` of `src/app/server.py`: keep `max(local, incoming)` for
`counter` and `last_seq`, assign every incoming blob entry. -/
def mergeState (s : ServerState) (data : ServerState) : ServerState :=
  { counter := max s.counter data.counter
    last_seq := max s.last_seq data.last_seq
    blob := blobMerge s.blob data.blob }

/-- A sequence of `POST /state` pushes applied to one replica. -/
def pushAll (s : ServerState) (ds : List ServerState) : ServerState :=
  ds.foldl mergeState s

/-- The counter-range filter of `pull_state` (`src/app/server.py` lines
143-151): an entry survives unless `min_counter_exclusive` is set and
`key <= min`, or `max_counter_inclusive` is set and `key > max`. -/
def keepEntry (minExcl maxIncl : Option Int) (k : Nat) : Bool :=
  (match minExcl with
   | none => true
   | some m => decide (m < (k : Int))) &&
  (match maxIncl with
   | none => true
   | some mx => decide ((k : Int) ≤ mx))

/-- `filtered_blob` built by `pull_state`. -/
def filterBlob (minExcl maxIncl : Option Int) (b : Blob) : Blob :=
  b.filter (fun kv => keepEntry minExcl maxIncl kv.1)

/-- The JSON body `pull_state` answers with on success. -/
structure PullResponse where
  state_size_bytes : Nat
  source_counter : Int
  dest_counter : Int
deriving Repr, DecidableEq

/-- The success path of `POST /pull_state` on the destination replica,
given the source state its `GET /state` request observes: filter the
source blob by the counter range, merge `{counter, last_seq, filtered
blob}` locally, and report `_blob_size_bytes(remote_blob)` — the size of
the UNfiltered source blob — plus the source and post-merge local
counters. -/
def pullState (dest source : ServerState) (minExcl maxIncl : Option Int) :
    ServerState × PullResponse :=
  let filtered := filterBlob minExcl maxIncl source.blob
  let dest' := mergeState dest
    { counter := source.counter, last_seq := source.last_seq, blob := filtered }
  (dest',
   { state_size_bytes := blobSizeBytes source.blob
     source_counter := source.counter
     dest_counter := dest'.counter })

/-- `MigrationWindow` of `src/benchmark/orchestrator/utils.py`. -/
structure MigrationWindow where
  start_ts : Rat
  end_ts : Rat
deriving Repr, DecidableEq

/-- `StateConsistency` of `migration_controller.py`. -/
structure StateConsistency where
  pre_counter : Int
  post_counter : Int
  diff : Int
  state_size_bytes : Int
deriving Repr, DecidableEq

/-- `MigrationController._consistency`. -/
def consistency (source_counter dest_counter state_size_bytes : Int) :
    StateConsistency :=
  { pre_counter := source_counter
    post_counter := dest_counter
    diff := |source_counter - dest_counter|
    state_size_bytes := state_size_bytes }

/-- `MigrationConfig` of `config_loader.py` (the fields the controller
reads). -/
structure MigrationConfig where
  strategy : String
  delay_s : Rat
  postcopy_sync_s : Rat
  dest_preboot : Bool
deriving Repr, DecidableEq

/-- The strategy check of `load_config`:
`migration.strategy in ("precopy", "postcopy", "cold")`. -/
def validStrategy (s : String) : Bool :=
  s = "precopy" || s = "postcopy" || s = "cold"

/-- Side effects the controller performs, in program order: alias
switching through the `DockerManager` and the two HTTP state operations. -/
inductive Event
  | dropAlias (server : String)
  | attachAlias (server : String)
  | getStateMeta (server : String)
  | pullStateRemote (dest : String) (minExcl maxIncl : Option Int)
deriving Repr, DecidableEq

/-- Python exceptions the orchestrator code can raise. -/
inductive PyError
  | requestException
  | valueError (msg : String)
  | typeError (msg : String)
deriving Repr, DecidableEq

/-- What one migration run hands back on success: the tuple
`(total_window, downtime_window, initial_window, consistency)` returned by
`MigrationController.run`, plus (for the model) the destination replica
state after the run. -/
structure MigrationReport where
  total : MigrationWindow
  downtime : MigrationWindow
  initial : MigrationWindow
  consist : StateConsistency
deriving Repr, DecidableEq

/-- Outcomes the environment supplies to the run, one per HTTP call in
program order: `none` models a transport failure (`requests` raising, or
`raise_for_status` on a non-2xx answer); `some s` a call that succeeds
while the source replica holds state `s`. -/
structure RunEnv where
  meta : Option ServerState
  pull1 : Option ServerState
  pull2 : Option ServerState
deriving Repr, DecidableEq

/-- The i-th `time.time()` reading a run takes (0 once the supplied clock
is exhausted). -/
def nowAt (clock : List Rat) (i : Nat) : Rat := clock.getD i 0

/-- `MigrationController._run_precopy` with both replicas up (as the CLI
always arranges): read the marker from `/state_meta`, pull entries with
key `≤ marker` into B, drop the alias from A, pull entries with key
`> marker`, attach the alias to B, and build the report from the final
pull response.  An exception from any HTTP call propagates (the code has
no handler); events performed before the failure are kept. -/
def runPrecopy (destB : ServerState) (env : RunEnv) (clock : List Rat) :
    List Event × Except PyError (MigrationReport × ServerState) :=
  let total_start := nowAt clock 0
  let initial_start := nowAt clock 1
  match env.meta with
  | none => ([.getStateMeta "server_a"], .error .requestException)
  | some s0 =>
    let marker : Int := s0.counter
    match env.pull1 with
    | none =>
        ([.getStateMeta "server_a",
          .pullStateRemote "server_b" none (some marker)],
         .error .requestException)
    | some s1 =>
      let destB1 := (pullState destB s1 none (some marker)).1
      let initial_end := nowAt clock 2
      let downtime_start := nowAt clock 3
      match env.pull2 with
      | none =>
          ([.getStateMeta "server_a",
            .pullStateRemote "server_b" none (some marker),
            .dropAlias "server_a",
            .pullStateRemote "server_b" (some marker) none],
           .error .requestException)
      | some s2 =>
        let pulled2 := pullState destB1 s2 (some marker) none
        let r2 := pulled2.2
        let downtime_end := nowAt clock 4
        let total_end := downtime_end
        ([.getStateMeta "server_a",
          .pullStateRemote "server_b" none (some marker),
          .dropAlias "server_a",
          .pullStateRemote "server_b" (some marker) none,
          .attachAlias "server_b"],
         .ok
          ({ total := ⟨total_start, total_end⟩
             downtime := ⟨downtime_start, downtime_end⟩
             initial := ⟨initial_start, initial_end⟩
             consist := consistency r2.source_counter r2.dest_counter
               r2.state_size_bytes },
           pulled2.1))

/-- `MigrationController._run_postcopy` with both replicas up: drop the
alias from A, one unfiltered `/pull_state` into B, attach the alias to B,
empty initial window, report from the single pull response.  The method
never reads `postcopy_sync_s` and performs nothing after the reattach. -/
def runPostcopy (destB : ServerState) (pullSrc : Option ServerState)
    (clock : List Rat) :
    List Event × Except PyError (MigrationReport × ServerState) :=
  let total_start := nowAt clock 0
  let downtime_start := nowAt clock 1
  match pullSrc with
  | none =>
      ([.dropAlias "server_a",
        .pullStateRemote "server_b" none none],
       .error .requestException)
  | some s =>
    let pulled := pullState destB s none none
    let r := pulled.2
    let downtime_end := nowAt clock 2
    let total_end := downtime_end
    ([.dropAlias "server_a",
      .pullStateRemote "server_b" none none,
      .attachAlias "server_b"],
     .ok
      ({ total := ⟨total_start, total_end⟩
         downtime := ⟨downtime_start, downtime_end⟩
         initial := ⟨total_start, total_start⟩
         consist := consistency r.source_counter r.dest_counter
           r.state_size_bytes },
       pulled.1))

/-- `MigrationController.run`: dispatch on the configured strategy; any
other value — including "cold", which `load_config` accepts — raises
`ValueError(f"Unknown migration strategy: ...")`.  The initial
`time.sleep(delay_s)` has no effect on the model. -/
def run (cfg : MigrationConfig) (destB : ServerState) (env : RunEnv)
    (clock : List Rat) :
    List Event × Except PyError (MigrationReport × ServerState) :=
  if cfg.strategy = "precopy" then runPrecopy destB env clock
  else if cfg.strategy = "postcopy" then runPostcopy destB env.pull1 clock
  else
    ([], .error (.valueError ("Unknown migration strategy: " ++ cfg.strategy)))

/-- One parsed `CSV:` telemetry line
(`MetricsCollector._parse_client_logs`). -/
structure TelemetryRecord where
  client : String
  seq : Int
  send_ts : Rat
  recv_ts : Option Rat
  rtt_ms : Option Rat
  status : String
deriving Repr, DecidableEq

/-- `max(list, default=d)` of Python: the default only when the list is
empty. -/
def maxDefault (l : List Rat) (d : Rat) : Rat :=
  match l with
  | [] => d
  | x :: xs => xs.foldl max x

/-- `min(list, default=d)` of Python. -/
def minDefault (l : List Rat) (d : Rat) : Rat :=
  match l with
  | [] => d
  | x :: xs => xs.foldl min x

/-- `MetricsCollector._window_slices`: `pre` strictly before the window,
`during` inside it (both ends closed), `post` strictly after. -/
def windowSlices (rows : List TelemetryRecord) (win : MigrationWindow) :
    List TelemetryRecord × List TelemetryRecord × List TelemetryRecord :=
  (rows.filter (fun r => decide (r.send_ts < win.start_ts)),
   rows.filter (fun r =>
     decide (win.start_ts ≤ r.send_ts) && decide (r.send_ts ≤ win.end_ts)),
   rows.filter (fun r => decide (win.end_ts < r.send_ts)))

/-- `MetricsCollector._compute_downtime`: gap from the last successful
send before the window to the first successful send after it, each side
falling back to the window boundary, floored at zero. -/
def computeDowntime (rows : List TelemetryRecord) (win : MigrationWindow) :
    Rat :=
  let before := rows.filter (fun r =>
    decide (r.send_ts < win.start_ts) && (r.status == "ok"))
  let after := rows.filter (fun r =>
    decide (win.end_ts < r.send_ts) && (r.status == "ok"))
  let last_ok_ts := maxDefault (before.map (·.send_ts)) win.start_ts
  let first_ok_ts := minDefault (after.map (·.send_ts)) win.end_ts
  max 0 (first_ok_ts - last_ok_ts)

/-- `MetricsCollector._compute_latency_before`. -/
def computeLatencyBefore (rows : List TelemetryRecord)
    (win : MigrationWindow) : Rat :=
  let before := rows.filter (fun r =>
    decide (r.send_ts < win.start_ts) && (r.status == "ok"))
  let last_ok_ts := maxDefault (before.map (·.send_ts)) win.start_ts
  max 0 (win.start_ts - last_ok_ts)

/-- The per-window tallies `_compute_packet_metrics` prints as
`debug_counts`. -/
structure DebugCounts where
  pre_total : Nat
  pre_ok : Nat
  during_total : Nat
  during_ok : Nat
  post_total : Nat
  post_ok : Nat
deriving Repr, DecidableEq

/-- `MetricsCollector._compute_packet_metrics`.  Its first component —
which `collect` passes to the `Metrics` constructor as
`packet_loss_during_migration_pct` — is `during_lost + post_lost`, a raw
count; the percentage `loss_pct_during` computed inside the method is
discarded.  (`max(0, total - ok)` is `Nat` subtraction here since
`ok ≤ total`.) -/
def computePacketMetrics (rows : List TelemetryRecord)
    (win : MigrationWindow) : Nat × Nat × Nat × DebugCounts :=
  let (pre, during, post) := windowSlices rows win
  let during_total := during.length
  let during_ok := during.countP (fun r => r.status == "ok")
  let during_lost := during_total - during_ok
  let post_total := post.length
  let post_ok := post.countP (fun r => r.status == "ok")
  let post_lost := post_total - post_ok
  let total_packets := rows.length
  let total_packets_successful := rows.countP (fun r => r.status == "ok")
  (during_lost + post_lost, total_packets_successful, total_packets,
   { pre_total := pre.length
     pre_ok := pre.countP (fun r => r.status == "ok")
     during_total := during_total
     during_ok := during_ok
     post_total := post_total
     post_ok := post_ok })

/-- The `Metrics` dataclass of `metrics_collector.py`. -/
structure Metrics where
  run_id : String
  strategy : String
  migration_time_ms : Rat
  client_downtime_ms : Rat
  latency_before_downtime_ms : Rat
  packet_loss_during_migration_pct : Nat
  total_packets_successful : Nat
  total_packets : Nat
  state_size_bytes : Int
deriving Repr, DecidableEq

/-- The field names of the `Metrics` dataclass, in declaration order
(all without defaults). -/
def metricsFieldNames : List String :=
  ["run_id", "strategy", "migration_time_ms", "client_downtime_ms",
   "latency_before_downtime_ms", "packet_loss_during_migration_pct",
   "total_packets_successful", "total_packets", "state_size_bytes"]

/-- The keyword-argument names `MetricsCollector.collect` passes to the
`Metrics` constructor (source lines 149-159). -/
def collectKwargNames : List String :=
  ["run_id", "strategy", "migration_time_ms", "client_downtime_ms",
   "migration_time_before_ms", "packet_loss_during_migration_pct",
   "total_packets_successful", "total_packets", "state_size_bytes"]

/-- A dataclass `__init__` call succeeds exactly when every keyword names
a field and every (default-free) field receives a keyword. -/
def dataclassInitOk (fields kwargs : List String) : Bool :=
  kwargs.all (fun k => fields.contains k) &&
  fields.all (fun f => kwargs.contains f)

/-- `MetricsCollector.collect` after log parsing: compute the latency and
downtime values, the packet tallies, and construct `Metrics` — which in
the source is called with the keyword `migration_time_before_ms`, not a
field of the dataclass, so the constructor call raises `TypeError`.
Note the call also passes the consistency `diff` as `state_size_bytes`. -/
def collect (run_id strategy : String) (rows : List TelemetryRecord)
    (win : MigrationWindow) (state_diff : Int) : Except PyError Metrics :=
  let latency_before_s := computeLatencyBefore rows win
  let downtime_s := computeDowntime rows win
  let client_downtime_ms := downtime_s * 1000
  let latency_before_downtime_ms := latency_before_s * 1000
  let migration_time_ms := client_downtime_ms + latency_before_downtime_ms
  let (loss, tot_ok, tot, _dbg) := computePacketMetrics rows win
  if dataclassInitOk metricsFieldNames collectKwargNames then
    .ok
      { run_id := run_id
        strategy := strategy
        migration_time_ms := migration_time_ms
        client_downtime_ms := client_downtime_ms
        latency_before_downtime_ms := latency_before_downtime_ms
        packet_loss_during_migration_pct := loss
        total_packets_successful := tot_ok
        total_packets := tot
        state_size_bytes := state_diff }
  else
    .error (.typeError
      "Metrics.__init__ got an unexpected keyword argument migration_time_before_ms")

/-- The downtime formula as the spec words it: "(min send_ts of records
with status ok and send_ts > end) − (max send_ts of records with status
ok and send_ts < start), floored at zero", each side falling back to the
window boundary when no such record exists. -/
def specDowntime (rows : List TelemetryRecord) (win : MigrationWindow) :
    Rat :=
  let lastOk :=
    (((rows.filter (fun r =>
        (r.status == "ok") && decide (r.send_ts < win.start_ts))).map
      (·.send_ts)).max?).getD win.start_ts
  let firstOk :=
    (((rows.filter (fun r =>
        (r.status == "ok") && decide (win.end_ts < r.send_ts))).map
      (·.send_ts)).min?).getD win.end_ts
  max 0 (firstOk - lastOk)

/-- The packet-loss figure as the spec words it:
"(during_count − during_ok_count) / during_count × 100, rounded to
nearest integer; zero when during_count = 0". -/
def specPacketLossPct (rows : List TelemetryRecord)
    (win : MigrationWindow) : Int :=
  let during := rows.filter (fun r =>
    decide (win.start_ts ≤ r.send_ts) && decide (r.send_ts ≤ win.end_ts))
  let total := during.length
  let ok := during.countP (fun r => r.status == "ok")
  if total = 0 then 0
  else round ((((total : Int) - (ok : Int) : Int) : Rat) / (total : Rat) * 100)

/-- The number of non-ok records in the `during` window plus those in the
`post` window — what the first component of `_compute_packet_metrics`
actually counts. -/
def lostDuringAndPost (rows : List TelemetryRecord)
    (win : MigrationWindow) : Nat :=
  (rows.filter (fun r =>
    (decide (win.start_ts ≤ r.send_ts) && decide (r.send_ts ≤ win.end_ts)) &&
      !(r.status == "ok"))).length +
  (rows.filter (fun r =>
    decide (win.end_ts < r.send_ts) && !(r.status == "ok"))).length

end StateMigration

namespace StateMigration

/-! ### Blob dictionary lemmas -/

theorem blobKeys_cons (k : Nat) (v : String) (b : Blob) :
    blobKeys ((k, v) :: b) = k :: blobKeys b := rfl

theorem blobGet_set_self (b : Blob) (k : Nat) (v : String) :
    blobGet (blobSet b k v) k = some v := by
  induction b with
  | nil => simp [blobSet, blobGet]
  | cons kv rest ih =>
    obtain ⟨k', v'⟩ := kv
    by_cases h : k' = k
    · simp [blobSet, h, blobGet]
    · simp [blobSet, h, blobGet, ih]

theorem blobGet_set_ne (b : Blob) {k k' : Nat} (v : String) (h : k ≠ k') :
    blobGet (blobSet b k' v) k = blobGet b k := by
  have hne : ¬ k' = k := fun hh => h (Eq.symm hh)
  induction b with
  | nil => simp [blobSet, blobGet, hne]
  | cons kv rest ih =>
    obtain ⟨k₀, v₀⟩ := kv
    by_cases h₀ : k₀ = k'
    · subst h₀
      simp [blobSet, blobGet, hne]
    · by_cases h₁ : k₀ = k
      · subst h₁
        simp [blobSet, h₀, blobGet]
      · simp [blobSet, h₀, blobGet, h₁, ih]

theorem blobSet_of_get_eq (b : Blob) (k : Nat) (v : String)
    (h : blobGet b k = some v) : blobSet b k v = b := by
  induction b with
  | nil => simp [blobGet] at h
  | cons kv rest ih =>
    obtain ⟨k₀, v₀⟩ := kv
    by_cases h₀ : k₀ = k
    · subst h₀
      simp [blobGet] at h
      simp [blobSet, h]
    · simp [blobGet, h₀] at h
      simp [blobSet, h₀, ih h]

theorem mem_blobKeys_set (b : Blob) (k k' : Nat) (v : String) :
    k ∈ blobKeys (blobSet b k' v) ↔ k = k' ∨ k ∈ blobKeys b := by
  induction b with
  | nil => simp [blobSet, blobKeys]
  | cons kv rest ih =>
    obtain ⟨k₀, v₀⟩ := kv
    by_cases h₀ : k₀ = k'
    · simp only [blobSet, if_pos h₀, blobKeys_cons, List.mem_cons]
      rw [h₀]
      tauto
    · simp only [blobSet, if_neg h₀, blobKeys_cons, List.mem_cons]
      rw [ih]
      tauto

theorem mem_blobKeys_merge (l i : Blob) (k : Nat) :
    k ∈ blobKeys (blobMerge l i) ↔ k ∈ blobKeys l ∨ k ∈ blobKeys i := by
  induction i generalizing l with
  | nil => simp [blobMerge, blobKeys]
  | cons kv rest ih =>
    obtain ⟨k₀, v₀⟩ := kv
    have hstep : blobMerge l ((k₀, v₀) :: rest)
        = blobMerge (blobSet l k₀ v₀) rest := rfl
    rw [hstep, ih, mem_blobKeys_set, blobKeys_cons, List.mem_cons]
    tauto

theorem blobGet_merge_not_mem (l i : Blob) (k : Nat)
    (h : k ∉ blobKeys i) :
    blobGet (blobMerge l i) k = blobGet l k := by
  induction i generalizing l with
  | nil => rfl
  | cons kv rest ih =>
    obtain ⟨k₀, v₀⟩ := kv
    rw [blobKeys_cons, List.mem_cons, not_or] at h
    have hstep : blobMerge l ((k₀, v₀) :: rest)
        = blobMerge (blobSet l k₀ v₀) rest := rfl
    rw [hstep, ih _ h.2, blobGet_set_ne l v₀ h.1]

theorem blobGet_merge_mem (l i : Blob) (k : Nat) (v : String)
    (hnd : (blobKeys i).Nodup) (hm : (k, v) ∈ i) :
    blobGet (blobMerge l i) k = some v := by
  induction i generalizing l with
  | nil => simp at hm
  | cons kv rest ih =>
    obtain ⟨k₀, v₀⟩ := kv
    rw [blobKeys_cons, List.nodup_cons] at hnd
    have hstep : blobMerge l ((k₀, v₀) :: rest)
        = blobMerge (blobSet l k₀ v₀) rest := rfl
    rcases List.mem_cons.mp hm with hh | ht
    · injection hh with hk hv
      subst hk; subst hv
      rw [hstep, blobGet_merge_not_mem _ _ _ hnd.1]
      exact blobGet_set_self ..
    · exact hstep ▸ ih _ hnd.2 ht

theorem blobMerge_of_get_eq (b i : Blob)
    (h : ∀ kv ∈ i, blobGet b kv.1 = some kv.2) : blobMerge b i = b := by
  induction i generalizing b with
  | nil => rfl
  | cons kv rest ih =>
    obtain ⟨k₀, v₀⟩ := kv
    have hset : blobSet b k₀ v₀ = b :=
      blobSet_of_get_eq _ _ _ (h (k₀, v₀) (by simp))
    have hstep : blobMerge b ((k₀, v₀) :: rest)
        = blobMerge (blobSet b k₀ v₀) rest := rfl
    rw [hstep, hset, ih _ (fun kv hkv => h kv (by simp [hkv]))]

theorem blobMerge_idem (l i : Blob) (hnd : (blobKeys i).Nodup) :
    blobMerge (blobMerge l i) i = blobMerge l i :=
  blobMerge_of_get_eq _ _ (fun kv hkv =>
    blobGet_merge_mem l i kv.1 kv.2 hnd hkv)

/-! ### Push-sequence lemmas -/

theorem counter_le_pushAll (s : ServerState) (ds : List ServerState) :
    s.counter ≤ (pushAll s ds).counter := by
  induction ds generalizing s with
  | nil => exact le_refl _
  | cons d rest ih =>
    exact le_trans (le_max_left s.counter d.counter) (ih (mergeState s d))

theorem lastSeq_le_pushAll (s : ServerState) (ds : List ServerState) :
    s.last_seq ≤ (pushAll s ds).last_seq := by
  induction ds generalizing s with
  | nil => exact le_refl _
  | cons d rest ih =>
    exact le_trans (le_max_left s.last_seq d.last_seq) (ih (mergeState s d))

theorem mem_blobKeys_pushAll (s : ServerState) (ds : List ServerState)
    (k : Nat) (h : k ∈ blobKeys s.blob) :
    k ∈ blobKeys (pushAll s ds).blob := by
  induction ds generalizing s with
  | nil => exact h
  | cons d rest ih =>
    exact ih (mergeState s d)
      ((mem_blobKeys_merge s.blob d.blob k).mpr (Or.inl h))

/-! ### Python min/max-with-default lemmas and counting lemmas -/

theorem maxDefault_eq_getD (l : List Rat) (d : Rat) :
    maxDefault l d = (l.max?).getD d := by
  cases l <;> rfl

theorem minDefault_eq_getD (l : List Rat) (d : Rat) :
    minDefault l d = (l.min?).getD d := by
  cases l <;> rfl

theorem length_sub_countP {α : Type} (l : List α) (q : α → Bool) :
    l.length - l.countP q = (l.filter (fun x => !(q x))).length := by
  rw [List.countP_eq_length_filter, List.length_eq_length_filter_add q]
  omega

theorem filter_and_comm {α : Type} (l : List α) (p q : α → Bool) :
    l.filter (fun x => p x && q x) = l.filter (fun x => q x && p x) :=
  List.filter_congr (fun x _ => Bool.and_comm (p x) (q x))

/-! ### Example data used by concrete evaluations -/

/-- A source blob with eight entries keyed 1..8, as in the precopy-delta
scenario of the spec (marker 5, final counter 8). -/
def exampleBlob8 : Blob :=
  [(1, "b1"), (2, "b2"), (3, "b3"), (4, "b4"),
   (5, "b5"), (6, "b6"), (7, "b7"), (8, "b8")]

/-- The telemetry of the spec's downtime example:
`[ok@9.0, err@10.5, err@11.0, ok@12.2]`. -/
def c6Rows : List TelemetryRecord :=
  [⟨"c1", 1, 9.0, some 9.1, some 100, "ok"⟩,
   ⟨"c1", 2, 10.5, none, none, "err_http"⟩,
   ⟨"c1", 3, 11.0, none, none, "err_http"⟩,
   ⟨"c1", 4, 12.2, some 12.3, some 100, "ok"⟩]

/-- The downtime window `[10.0, 12.0]` of that example. -/
def c6Win : MigrationWindow := ⟨10.0, 12.0⟩

/-! ## Claims -/

/-- C4: merging a pushed snapshot keeps `max(local, incoming)` for
`counter` and `last_seq` and unions blob entries; pushing the same
snapshot twice leaves `counter`, `last_seq` and `blob` identical to the
state after the first push; over any sequence of pushes `counter` and
`last_seq` are non-decreasing and no blob key is ever removed. -/
theorem C4_merge_idempotent_monotone (s d : ServerState)
    (ds : List ServerState) (k : Nat)
    (hnd : (blobKeys d.blob).Nodup) :
    (mergeState s d).counter = max s.counter d.counter
    ∧ (mergeState s d).last_seq = max s.last_seq d.last_seq
    ∧ (k ∈ blobKeys (mergeState s d).blob
        ↔ k ∈ blobKeys s.blob ∨ k ∈ blobKeys d.blob)
    ∧ mergeState (mergeState s d) d = mergeState s d
    ∧ s.counter ≤ (pushAll s ds).counter
    ∧ s.last_seq ≤ (pushAll s ds).last_seq
    ∧ (k ∈ blobKeys s.blob → k ∈ blobKeys (pushAll s ds).blob) := by
  refine ⟨rfl, rfl, mem_blobKeys_merge s.blob d.blob k, ?_,
    counter_le_pushAll s ds, lastSeq_le_pushAll s ds,
    mem_blobKeys_pushAll s ds k⟩
  simp [mergeState, max_assoc, max_self, blobMerge_idem _ _ hnd]

theorem C4_merge_idempotent_monotone_witness :
    (blobKeys (ServerState.blob ⟨2, 1, [(1, "b"), (2, "c")]⟩)).Nodup
    ∧ mergeState (mergeState ⟨1, 0, [(1, "a")]⟩ ⟨2, 1, [(1, "b"), (2, "c")]⟩)
        ⟨2, 1, [(1, "b"), (2, "c")]⟩
      = mergeState ⟨1, 0, [(1, "a")]⟩ ⟨2, 1, [(1, "b"), (2, "c")]⟩ :=
  ⟨by decide,
   (C4_merge_idempotent_monotone ⟨1, 0, [(1, "a")]⟩ ⟨2, 1, [(1, "b"), (2, "c")]⟩
     [] 1 (by decide)).2.2.2.1⟩

/-- C5: with consistency marker `m`, the initial-copy pull keeps exactly
the source blob entries with key `≤ m` and the final-copy pull exactly
those with key `> m`; the two sets are disjoint and together they are a
permutation of the full source blob; a precopy run issues exactly those
two pulls with the marker read from the source metadata; and for marker 5
over keys 1..8 the split is `{1..5}` then `{6,7,8}`. -/
theorem C5_precopy_delta (b : Blob) (m : Int) (kv : Nat × String) :
    (kv ∈ filterBlob none (some m) b ↔ kv ∈ b ∧ (kv.1 : Int) ≤ m)
    ∧ (kv ∈ filterBlob (some m) none b ↔ kv ∈ b ∧ m < (kv.1 : Int))
    ∧ ¬(kv ∈ filterBlob none (some m) b ∧ kv ∈ filterBlob (some m) none b)
    ∧ List.Perm (filterBlob none (some m) b ++ filterBlob (some m) none b) b
    ∧ (∀ (s0 s1 s2 destB : ServerState) (clock : List Rat),
        (runPrecopy destB ⟨some s0, some s1, some s2⟩ clock).1
          = [.getStateMeta "server_a",
             .pullStateRemote "server_b" none (some s0.counter),
             .dropAlias "server_a",
             .pullStateRemote "server_b" (some s0.counter) none,
             .attachAlias "server_b"])
    ∧ filterBlob none (some 5) exampleBlob8
        = [(1, "b1"), (2, "b2"), (3, "b3"), (4, "b4"), (5, "b5")]
    ∧ filterBlob (some 5) none exampleBlob8
        = [(6, "b6"), (7, "b7"), (8, "b8")] := by
  have hmax : ∀ kv' : Nat × String,
      kv' ∈ filterBlob none (some m) b ↔ kv' ∈ b ∧ (kv'.1 : Int) ≤ m := by
    intro kv'
    simp [filterBlob, keepEntry, List.mem_filter]
  have hmin : ∀ kv' : Nat × String,
      kv' ∈ filterBlob (some m) none b ↔ kv' ∈ b ∧ m < (kv'.1 : Int) := by
    intro kv'
    simp [filterBlob, keepEntry, List.mem_filter]
  refine ⟨hmax kv, hmin kv, ?_, ?_, ?_, by decide, by decide⟩
  · rintro ⟨h1, h2⟩
    have hle := ((hmax kv).mp h1).2
    have hlt := ((hmin kv).mp h2).2
    omega
  · have hflip : filterBlob (some m) none b
        = b.filter (fun kv' => !(keepEntry none (some m) kv'.1)) := by
      refine List.filter_congr ?_
      intro x _
      simp only [keepEntry, Bool.and_true, Bool.true_and, ← decide_not,
        decide_eq_decide]
      omega
    rw [hflip]
    exact List.filter_append_perm _ b
  · intro s0 s1 s2 destB clock
    rfl

/-- C6: the computed downtime is exactly the spec formula — (first ok send
after the window end, defaulting to the end) minus (last ok send before
the window start, defaulting to the start), floored at zero — hence never
negative, and on the records `[ok@9.0, err@10.5, err@11.0, ok@12.2]` with
window `[10.0, 12.0]` it is 3.2 seconds. -/
theorem C6_downtime (rows : List TelemetryRecord) (win : MigrationWindow) :
    computeDowntime rows win = specDowntime rows win
    ∧ 0 ≤ computeDowntime rows win
    ∧ computeDowntime c6Rows c6Win = 16/5 := by
  refine ⟨?_, le_max_left 0 _, ?_⟩
  · unfold computeDowntime specDowntime
    simp only [maxDefault_eq_getD, minDefault_eq_getD,
      filter_and_comm rows (fun r => decide (r.send_ts < win.start_ts))
        (fun r => r.status == "ok"),
      filter_and_comm rows (fun r => decide (win.end_ts < r.send_ts))
        (fun r => r.status == "ok")]
  · norm_num [computeDowntime, c6Rows, c6Win, List.filter, maxDefault,
      minDefault]

end StateMigration

namespace StateMigration

/-- The consistency diff a run reports, when it returns at all. -/
def reportDiff
    (x : List Event × Except PyError (MigrationReport × ServerState)) :
    Option Int :=
  match x.2 with
  | .ok y => some y.1.consist.diff
  | .error _ => none

/-- C1: `load_config` accepts strategy "cold", but `MigrationController.run`
raises `ValueError` on it instead of executing any phase. -/
theorem C1_cold_not_implemented (d ps : Rat) (pb : Bool)
    (destB : ServerState) (env : RunEnv) (clock : List Rat) :
    validStrategy "cold" = true
    ∧ run ⟨"cold", d, ps, pb⟩ destB env clock
        = ([], .error (.valueError "Unknown migration strategy: cold")) :=
  ⟨rfl, rfl⟩

/-- C2: a postcopy run performs exactly detach, one unfiltered pull,
attach — nothing after the reattach — and its outcome is independent of
the configured `postcopy_sync_s` (and of `dest_preboot`, both replicas
being up): the bounded resync phase does not exist in the code. -/
theorem C2_postcopy_never_resyncs (d ps1 ps2 : Rat) (pb1 pb2 : Bool)
    (destB s : ServerState) (env : RunEnv) (clock : List Rat) :
    run ⟨"postcopy", d, ps1, pb1⟩ destB env clock
      = run ⟨"postcopy", d, ps2, pb2⟩ destB env clock
    ∧ (runPostcopy destB (some s) clock).1
        = [.dropAlias "server_a",
           .pullStateRemote "server_b" none none,
           .attachAlias "server_b"] :=
  ⟨rfl, rfl⟩

/-- C3: a run that completes with no transfer failure, a fresh
destination, and a source that only grew between the marker read and the
post-detach pull (and accepted nothing after detach) reports
`diff = 0` — for precopy and for postcopy. -/
theorem C3_zero_diff (s0 s1 s2 : ServerState) (clock : List Rat)
    (h1 : 0 ≤ s1.counter) (h12 : s1.counter ≤ s2.counter) :
    reportDiff (runPrecopy initState ⟨some s0, some s1, some s2⟩ clock)
      = some 0
    ∧ reportDiff (runPostcopy initState (some s2) clock) = some 0 := by
  constructor
  · simp only [runPrecopy, reportDiff, pullState, mergeState, consistency,
      initState]
    rw [max_eq_right h1, max_eq_right h12, sub_self, abs_zero]
  · simp only [runPostcopy, reportDiff, pullState, mergeState, consistency,
      initState]
    rw [max_eq_right (le_trans h1 h12), sub_self, abs_zero]

theorem C3_zero_diff_witness :
    reportDiff (runPrecopy initState
        ⟨some ⟨3, 2, []⟩, some ⟨4, 3, []⟩, some ⟨5, 4, []⟩⟩ []) = some 0
    ∧ reportDiff (runPostcopy initState (some ⟨5, 4, []⟩) []) = some 0 :=
  C3_zero_diff ⟨3, 2, []⟩ ⟨4, 3, []⟩ ⟨5, 4, []⟩ [] (by decide) (by decide)

/-- Telemetry refuting the claim that the reported loss figure is a
percentage: two records in the during window, one of them successful. -/
def c7Rows : List TelemetryRecord :=
  [⟨"c1", 1, 10.5, some 10.6, some 50, "ok"⟩,
   ⟨"c1", 2, 11.0, none, none, "err_http"⟩]

/-- C7 counterexample: on `c7Rows` with window `[10.0, 12.0]` the value
`_compute_packet_metrics` hands to `collect` (and `collect` would pass as
`packet_loss_during_migration_pct`) is 1 — a lost-packet count — while
the claimed formula gives 50. -/
theorem C7_counterexample :
    (computePacketMetrics c7Rows c6Win).1 = 1
    ∧ specPacketLossPct c7Rows c6Win = 50
    ∧ (1 : Int) ≠ 50 := by
  refine ⟨?_, ?_, by decide⟩
  · norm_num [computePacketMetrics, windowSlices, c7Rows, c6Win,
      List.filter, List.countP, List.countP.go,
      show (("err_http" == "ok") = false) from rfl]
  · norm_num [specPacketLossPct, c7Rows, c6Win, List.filter, List.countP,
      List.countP.go, round_eq,
      show (("err_http" == "ok") = false) from rfl]

/-- C7 amended: the loss figure passed to the `Metrics` constructor is
the number of non-ok records in the during window plus the number in the
post window — a count, not a rounded percentage. -/
theorem C7_loss_is_a_count (rows : List TelemetryRecord)
    (win : MigrationWindow) :
    (computePacketMetrics rows win).1 = lostDuringAndPost rows win := by
  unfold computePacketMetrics windowSlices lostDuringAndPost
  simp only []
  rw [length_sub_countP, length_sub_countP, List.filter_filter,
    List.filter_filter]
  congr 1
  · exact congrArg List.length (List.filter_congr (fun x _ =>
      Bool.and_comm _ _))
  · exact congrArg List.length (List.filter_congr (fun x _ =>
      Bool.and_comm _ _))

/-- Source state refuting the claim that the reported size covers
exactly the filtered entries. -/
def c8Src : ServerState := ⟨2, 1, [(1, "ab"), (2, "cd")]⟩

/-- C8 counterexample: a pull filtered to keys ≤ 1 merges only the entry
`(1, "ab")` (2 bytes) into the destination, yet reports
`state_size_bytes = 4`, the size of the whole source blob. -/
theorem C8_counterexample :
    (pullState initState c8Src none (some 1)).2.state_size_bytes = 4
    ∧ blobSizeBytes (filterBlob none (some 1) c8Src.blob) = 2
    ∧ (4 : Nat) ≠ 2 := by
  refine ⟨by decide, by decide, by decide⟩

/-- A 32-byte payload chunk. -/
def chunk32 : String := "xxxxxxxxxxxxxxxxxxxxxxxxxxxxxxxx"

/-- The end-to-end scenario source: counter 10, blob keys 1..10, 32 bytes
each. -/
def src10 : ServerState := ⟨10, 9, (List.range 10).map (fun i => (i + 1, chunk32))⟩

/-- C8 amended: `pull_state` always reports the byte size of the full
(unfiltered) source blob; on an unfiltered full pull — the transfer the
cold scenario describes — that coincides with the payload merged into the
destination, and the 10-entries-of-32-bytes source yields
`state_size_bytes = 320`, destination counter 10 and `diff = 0`. -/
theorem C8_size_is_unfiltered (dest src : ServerState)
    (minE maxI : Option Int) :
    (pullState dest src minE maxI).2.state_size_bytes
      = blobSizeBytes src.blob
    ∧ (pullState initState src10 none none).2.state_size_bytes = 320
    ∧ (pullState initState src10 none none).2.dest_counter = 10
    ∧ (consistency (pullState initState src10 none none).2.source_counter
        (pullState initState src10 none none).2.dest_counter
        ((pullState initState src10 none none).2.state_size_bytes : Int)).diff
      = 0 :=
  ⟨rfl, by decide, by decide, by decide⟩

/-- C9 counterexample: with the very first HTTP call failing, a precopy
run propagates the transport exception to the caller instead of
returning a report. -/
theorem C9_counterexample :
    (run ⟨"precopy", 0, 5, true⟩ initState ⟨none, none, none⟩ []).2
      = .error .requestException := rfl

/-- C9 amended: a persistent state-transfer failure at any phase of a
precopy or postcopy run makes `MigrationController.run` raise to its
caller; no `MigrationReport` of any kind is returned. -/
theorem C9_failure_propagates (d ps : Rat) (pb : Bool)
    (destB : ServerState) (p1 p2 m : Option ServerState)
    (s0 s1 : ServerState) (clock : List Rat) :
    (run ⟨"precopy", d, ps, pb⟩ destB ⟨none, p1, p2⟩ clock).2
      = .error .requestException
    ∧ (run ⟨"precopy", d, ps, pb⟩ destB ⟨some s0, none, p2⟩ clock).2
      = .error .requestException
    ∧ (run ⟨"precopy", d, ps, pb⟩ destB ⟨some s0, some s1, none⟩ clock).2
      = .error .requestException
    ∧ (run ⟨"postcopy", d, ps, pb⟩ destB ⟨m, none, p2⟩ clock).2
      = .error .requestException :=
  ⟨rfl, rfl, rfl, rfl⟩

/-- C10: `collect` always raises `TypeError`: the constructor call names
`migration_time_before_ms`, which is not a `Metrics` field (the field is
`latency_before_downtime_ms`), so no `Metrics` record is ever produced. -/
theorem C10_collect_raises_type_error (run_id strategy : String)
    (rows : List TelemetryRecord) (win : MigrationWindow)
    (state_diff : Int) :
    collect run_id strategy rows win state_diff
      = .error (.typeError
        "Metrics.__init__ got an unexpected keyword argument migration_time_before_ms")
    ∧ "migration_time_before_ms" ∉ metricsFieldNames
    ∧ "migration_time_before_ms" ∈ collectKwargNames
    ∧ "latency_before_downtime_ms" ∈ metricsFieldNames := by
  refine ⟨?_, by decide, by decide, by decide⟩
  have hbad : dataclassInitOk metricsFieldNames collectKwargNames = false := by
    decide
  simp [collect, hbad]

end StateMigration
